import Mathlib

/-!
Verification of the OpenAI-to-NVIDIA-NIM proxy (src/server.js).

The development shallowly embeds the request-handling core of the proxy:
the model mapping table, the upstream request construction, the
non-streaming response reshaping, the streaming byte relay, the error
normalization, and the route dispatch.  JavaScript `x || d` defaulting is
embedded as an explicit falsy check (absent, zero, empty string or false
selects the default), numbers are embedded as exact rationals or integers,
and the handler records the list of requests it sends upstream so that
call counts are observable.
-/

namespace NimProxy

/-- The entries of the MODEL_MAPPING object literal (src/server.js lines
18 to 28).  Note: the source literal is missing a comma between the
gemini-pro entry and the deepseek-v3.2 entry, which is a JavaScript
SyntaxError; the table is embedded here with its nine intended entries.
That startup defect is recorded separately and does not change the lookup
semantics embedded below. -/
def MODEL_MAPPING : List (String × String) :=
  [ ("gpt-3.5-turbo", "meta/llama-3.1-8b-instruct")
  , ("gpt-4", "meta/llama-3.1-70b-instruct")
  , ("gpt-4-turbo", "meta/llama-3.1-405b-instruct")
  , ("gpt-4o", "meta/llama-3.1-405b-instruct")
  , ("claude-3-opus", "meta/llama-3.1-405b-instruct")
  , ("claude-3-sonnet", "meta/llama-3.1-70b-instruct")
  , ("gemini-pro", "meta/llama-3.1-70b-instruct")
  , ("deepseek-v3.2", "deepseek-ai/deepseek-v3.1")
  , ("deepseek-r1-0528", "deepseek-ai/deepseek-r1-0528")
  ]

/-- JavaScript property lookup `table[key]`: the value when the key is
present, undefined (none) otherwise. -/
def tableLookup (table : List (String × String)) (key : String) : Option String :=
  (table.find? (fun p => p.1 == key)).map (fun p => p.2)

/-- JavaScript `a || b` where `a` is an optional string and `b` is an
optional string: `b` when `a` is undefined or the empty string (falsy),
`a` otherwise. -/
def jsOrElseStr (v : Option String) (d : Option String) : Option String :=
  match v with
  | some s => if s = "" then d else some s
  | none => d

/-- JavaScript `a || b` for an optional string with a plain default. -/
def jsOrDefaultStr (v : Option String) (d : String) : String :=
  match v with
  | some s => if s = "" then d else s
  | none => d

/-- JavaScript `a || b` for an optional rational with a plain default:
zero is falsy and selects the default. -/
def jsOrDefaultQ (v : Option ℚ) (d : ℚ) : ℚ :=
  match v with
  | some x => if x = 0 then d else x
  | none => d

/-- JavaScript `a || b` for an optional integer with a plain default:
zero is falsy and selects the default. -/
def jsOrDefaultZ (v : Option ℤ) (d : ℤ) : ℤ :=
  match v with
  | some x => if x = 0 then d else x
  | none => d

/-- JavaScript `a || b` for an optional boolean with a plain default:
false is falsy and selects the default. -/
def jsOrDefaultB (v : Option Bool) (d : Bool) : Bool :=
  match v with
  | some b => if b = false then d else b
  | none => d

/-- JavaScript `a || b` for an optional natural number with a plain
default: zero is falsy and selects the default. -/
def jsOrDefaultNat (v : Option ℕ) (d : ℕ) : ℕ :=
  match v with
  | some n => if n = 0 then d else n
  | none => d

/-- Model resolution (src/server.js line 82):
`MODEL_MAPPING[model] || MODEL_MAPPING[gpt-3.5-turbo]`. -/
def resolveUpstreamModel (m : String) : Option String :=
  jsOrElseStr (tableLookup MODEL_MAPPING m) (tableLookup MODEL_MAPPING "gpt-3.5-turbo")

/-- A chat message: role and content, passed through unvalidated. -/
structure ChatMessage where
  role : String
  content : String
deriving DecidableEq

/-- The Inbound Chat Request destructured from the request body
(src/server.js line 79).  Optional fields are embedded as options. -/
structure InboundChatRequest where
  model : String
  messages : List ChatMessage
  temperature : Option ℚ
  max_tokens : Option ℤ
  stream : Option Bool
deriving DecidableEq

/-- The Upstream Chat Request sent to the NIM endpoint.  The model field
is optional because the JavaScript lookup yields undefined when both the
requested key and the fallback key are absent. -/
structure NimRequest where
  model : Option String
  messages : List ChatMessage
  temperature : ℚ
  max_tokens : ℤ
  stream : Bool
deriving DecidableEq

/-- Construction of the upstream request (src/server.js lines 85 to 91):
defaults are applied with JavaScript `||`, so a falsy supplied value
(zero temperature, zero max_tokens, false stream) also selects the
default. -/
def buildUpstreamRequest (inbound : InboundChatRequest) : NimRequest :=
  { model := resolveUpstreamModel inbound.model
  , messages := inbound.messages
  , temperature := jsOrDefaultQ inbound.temperature (7/10)
  , max_tokens := jsOrDefaultZ inbound.max_tokens 2048
  , stream := jsOrDefaultB inbound.stream false }

/-- A usage object: prompt, completion and total token counts. -/
structure Usage where
  prompt_tokens : ℕ
  completion_tokens : ℕ
  total_tokens : ℕ
deriving DecidableEq

/-- A choice object of the upstream (and caller-facing) response. -/
structure Choice where
  index : ℕ
  message : ChatMessage
  finish_reason : String
deriving DecidableEq

/-- A non-streaming upstream success body: a choice sequence and an
optional usage object. -/
structure NimResponse where
  choices : List Choice
  usage : Option Usage
deriving DecidableEq

/-- Decimal digit characters, as produced by JavaScript number to string
conversion of a nonnegative integer. -/
def decDigitChar (d : ℕ) : Char :=
  match d with
  | 0 => '0'
  | 1 => '1'
  | 2 => '2'
  | 3 => '3'
  | 4 => '4'
  | 5 => '5'
  | 6 => '6'
  | 7 => '7'
  | 8 => '8'
  | 9 => '9'
  | _ => '?'

/-- Big-endian decimal digits of `n`, with explicit fuel (the fuel is
always instantiated with `n` itself, which bounds the recursion). -/
def decDigitsAux : ℕ → ℕ → List Char
  | 0, _ => []
  | fuel + 1, n =>
      if n = 0 then [] else decDigitsAux fuel (n / 10) ++ [decDigitChar (n % 10)]

/-- JavaScript template interpolation of a nonnegative integer: its
decimal representation. -/
def natToDecimal (n : ℕ) : String :=
  if n = 0 then "0" else String.mk (decDigitsAux n n)

/-- The Caller-facing Chat Response (src/server.js lines 129 to 147). -/
structure OpenAIResponse where
  id : String
  object : String
  created : ℕ
  model : String
  choices : List Choice
  usage : Usage
deriving DecidableEq

/-- Reshaping of the upstream non-streaming body into the caller-facing
response (src/server.js lines 129 to 147): synthesized id from the
current millisecond clock, the caller-requested model name restored,
choices rebuilt field by field, and usage defaulted to zero counts when
absent (a present usage object is never falsy in JavaScript). -/
def transcodeResponse (callerModel : String) (data : NimResponse) (nowMillis : ℕ) :
    OpenAIResponse :=
  { id := "chatcmpl-" ++ natToDecimal nowMillis
  , object := "chat.completion"
  , created := nowMillis / 1000
  , model := callerModel
  , choices := data.choices.map (fun c =>
      { index := c.index
      , message := { role := c.message.role, content := c.message.content }
      , finish_reason := c.finish_reason })
  , usage :=
      match data.usage with
      | some u => u
      | none => { prompt_tokens := 0, completion_tokens := 0, total_tokens := 0 } }

/-- An event observed on the upstream byte stream: a data chunk, normal
end of stream, or a transport error. -/
inductive StreamEvent where
  | chunk (data : String)
  | streamEnd
  | streamError (msg : String)
deriving DecidableEq

/-- The caller-facing response stream: the chunks written so far, in
order, and whether the stream has been closed.  The source never writes
any terminal error payload, so anything the caller receives is in
`written`. -/
structure CallerStreamState where
  written : List String
  closed : Bool
deriving DecidableEq

/-- The three stream event handlers (src/server.js lines 115 to 126):
a data chunk is written to the caller verbatim; end closes the caller
stream; a transport error is logged only and closes the caller stream,
writing nothing. -/
def handleStreamEvent (s : CallerStreamState) : StreamEvent → CallerStreamState
  | .chunk c => { s with written := s.written ++ [c] }
  | .streamEnd => { s with closed := true }
  | .streamError _ => { s with closed := true }

/-- The streaming relay: fold the event handlers over the upstream event
sequence, starting from an empty open caller stream. -/
def relayStream (events : List StreamEvent) : CallerStreamState :=
  events.foldl handleStreamEvent { written := [], closed := false }

/-- The innermost structured part of an upstream error body. -/
structure UpstreamErrorPayload where
  message : Option String
deriving DecidableEq

/-- An upstream error body, possibly carrying a structured error. -/
structure UpstreamErrorBody where
  error : Option UpstreamErrorPayload
deriving DecidableEq

/-- The response attached to an axios failure: the upstream HTTP status
and the parsed body when one was received. -/
structure UpstreamErrorResponse where
  status : ℕ
  data : Option UpstreamErrorBody
deriving DecidableEq

/-- An axios failure: an optional upstream response (absent on network
failure) and the raw failure description. -/
structure AxiosError where
  response : Option UpstreamErrorResponse
  message : String
deriving DecidableEq

/-- `error.response?.status || 500` (src/server.js line 156). -/
def upstreamStatusCode (e : AxiosError) : ℕ :=
  jsOrDefaultNat (e.response.map (fun r => r.status)) 500

/-- The optional chain `error.response?.data?.error?.message`
(src/server.js line 157). -/
def upstreamErrorMessage (e : AxiosError) : Option String :=
  ((e.response.bind (fun r => r.data)).bind (fun b => b.error)).bind
    (fun p => p.message)

/-- `error.response?.data?.error?.message || error.message`
(src/server.js line 157). -/
def errorMessageOf (e : AxiosError) : String :=
  jsOrDefaultStr (upstreamErrorMessage e) e.message

/-- The single normalized error shape.  The code field is absent for the
configuration and not-found envelopes and present for upstream
failures. -/
structure ErrorEnvelope where
  message : String
  type : String
  code : Option ℕ
deriving DecidableEq

/-- The envelope produced by the catch block (src/server.js lines 159 to
165). -/
def nvidiaErrorEnvelope (e : AxiosError) : ErrorEnvelope :=
  { message := errorMessageOf e
  , type := "nvidia_api_error"
  , code := some (upstreamStatusCode e) }

/-- The envelope returned when no credential is configured
(src/server.js lines 71 to 76). -/
def configErrorEnvelope : ErrorEnvelope :=
  { message := "NIM_API_KEY não configurada no servidor"
  , type := "configuration_error"
  , code := none }

/-- JavaScript truthiness of the configured credential:
`!NIM_API_KEY` holds when the variable is unset or the empty string. -/
def jsTruthyKey : Option String → Bool
  | none => false
  | some s => s != ""

/-- The outcome of one upstream call.  The response type requested from
the transport (byte stream versus parsed JSON) is fixed by the inbound
stream flag, so the constructor records which presentation arrived. -/
inductive UpstreamResult where
  | json (data : NimResponse)
  | byteStream (events : List StreamEvent)
  | failure (e : AxiosError)

/-- The body of a caller-facing handler outcome. -/
inductive HandlerBody where
  | errorBody (env : ErrorEnvelope)
  | completion (resp : OpenAIResponse)
  | eventStream (final : CallerStreamState)
deriving DecidableEq

/-- The observable outcome of one handler invocation: the HTTP status,
the body, and the list of requests issued upstream (the call-count
spy). -/
structure HandlerOutput where
  status : ℕ
  body : HandlerBody
  sentRequests : List NimRequest
deriving DecidableEq

/-- The POST /v1/chat/completions handler (src/server.js lines 68 to
167): the credential check precedes everything else and returns the
configuration envelope with no upstream call; otherwise the upstream
request is built and issued once, and the outcome is relayed (streaming),
transcoded (non-streaming success) or normalized (failure). -/
def handleChatCompletion (apiKey : Option String) (req : InboundChatRequest)
    (upstream : NimRequest → UpstreamResult) (nowMillis : ℕ) : HandlerOutput :=
  if jsTruthyKey apiKey = false then
    { status := 500, body := .errorBody configErrorEnvelope, sentRequests := [] }
  else
    let nimReq := buildUpstreamRequest req
    match upstream nimReq with
    | .byteStream events =>
        { status := 200
        , body := .eventStream (relayStream events)
        , sentRequests := [nimReq] }
    | .json data =>
        { status := 200
        , body := .completion (transcodeResponse req.model data nowMillis)
        , sentRequests := [nimReq] }
    | .failure e =>
        { status := upstreamStatusCode e
        , body := .errorBody (nvidiaErrorEnvelope e)
        , sentRequests := [nimReq] }

/-- The routing surface of the application: the four defined routes and
the catch-all (src/server.js lines 31, 40, 53, 68 and 170 to 177). -/
inductive RouteOutcome where
  | health
  | root
  | models
  | chatCompletions
  | notFound (status : ℕ) (env : ErrorEnvelope)
deriving DecidableEq

/-- Route dispatch: the four registered method and path pairs, then the
catch-all which returns a 404 not-found envelope naming the path. -/
def dispatchRoute (method : String) (path : String) : RouteOutcome :=
  if method = "GET" ∧ path = "/health" then .health
  else if method = "GET" ∧ path = "/" then .root
  else if method = "GET" ∧ path = "/v1/models" then .models
  else if method = "POST" ∧ path = "/v1/chat/completions" then .chatCompletions
  else .notFound 404
    { message := "Endpoint " ++ path ++ " não encontrado"
    , type := "not_found"
    , code := none }

/-- A concrete inbound request used by witnesses. -/
def inboundExample : InboundChatRequest :=
  { model := "gpt-4"
  , messages := [{ role := "user", content := "hello" }]
  , temperature := none
  , max_tokens := none
  , stream := none }

/-- A concrete upstream behavior used by witnesses: every call fails
with a bare network error. -/
def upstreamUnavailable : NimRequest → UpstreamResult :=
  fun _ => .failure { response := none, message := "network down" }

/-- A concrete upstream success body used by witnesses: one choice and
no usage object. -/
def nimResponseExample : NimResponse :=
  { choices := [{ index := 0, message := { role := "assistant", content := "hi" }, finish_reason := "stop" }]
  , usage := none }

/-- Evaluation of a big-endian decimal digit list back to a natural
number, used to invert the decimal conversion. -/
def decimalValue (l : List Char) : ℕ :=
  l.foldl (fun acc c => 10 * acc + (c.toNat - 48)) 0

theorem decimalValue_append (l : List Char) (c : Char) :
    decimalValue (l ++ [c]) = 10 * decimalValue l + (c.toNat - 48) := by
  simp [decimalValue, List.foldl_append]

theorem toNat_decDigitChar (d : ℕ) (h : d < 10) : (decDigitChar d).toNat - 48 = d := by
  interval_cases d <;> rfl

theorem decimalValue_decDigitsAux (fuel : ℕ) :
    ∀ n, n ≤ fuel → decimalValue (decDigitsAux fuel n) = n := by
  induction fuel with
  | zero =>
    intro n h
    have hn : n = 0 := Nat.le_zero.mp h
    subst hn
    rfl
  | succ f ih =>
    intro n h
    by_cases hn : n = 0
    · subst hn
      simp [decDigitsAux, decimalValue]
    · have hpos : 0 < n := Nat.pos_of_ne_zero hn
      have hlt : n / 10 < n := Nat.div_lt_self hpos (by omega)
      have hdiv : n / 10 ≤ f := by omega
      calc decimalValue (decDigitsAux (f + 1) n)
          = decimalValue (decDigitsAux f (n / 10) ++ [decDigitChar (n % 10)]) := by
            simp [decDigitsAux, hn]
        _ = 10 * decimalValue (decDigitsAux f (n / 10)) + ((decDigitChar (n % 10)).toNat - 48) :=
            decimalValue_append _ _
        _ = 10 * (n / 10) + n % 10 := by
            rw [ih (n / 10) hdiv, toNat_decDigitChar _ (Nat.mod_lt n (by omega))]
        _ = n := by omega

theorem string_eq_of_data_eq {s t : String} (h : s.data = t.data) : s = t := by
  cases s
  cases t
  exact congrArg String.mk h

theorem natToDecimal_injective {m n : ℕ} (h : natToDecimal m = natToDecimal n) : m = n := by
  unfold natToDecimal at h
  by_cases hm : m = 0 <;> by_cases hn : n = 0
  · omega
  · rw [if_pos hm, if_neg hn] at h
    have hd : (['0'] : List Char) = decDigitsAux n n := congrArg String.data h
    have hv := congrArg decimalValue hd
    rw [decimalValue_decDigitsAux n n (le_refl n)] at hv
    have hz : (0 : ℕ) = n := hv
    omega
  · rw [if_neg hm, if_pos hn] at h
    have hd : decDigitsAux m m = (['0'] : List Char) := congrArg String.data h
    have hv := congrArg decimalValue hd
    rw [decimalValue_decDigitsAux m m (le_refl m)] at hv
    have hz : m = (0 : ℕ) := hv
    omega
  · rw [if_neg hm, if_neg hn] at h
    have hd : decDigitsAux m m = decDigitsAux n n := congrArg String.data h
    have hv := congrArg decimalValue hd
    rw [decimalValue_decDigitsAux m m (le_refl m),
        decimalValue_decDigitsAux n n (le_refl n)] at hv
    exact hv

theorem responseId_ne (t1 t2 : ℕ) (h : t1 ≠ t2) :
    ("chatcmpl-" ++ natToDecimal t1) ≠ ("chatcmpl-" ++ natToDecimal t2) := by
  intro he
  apply h
  apply natToDecimal_injective
  have hd := congrArg String.data he
  simp only [String.data_append] at hd
  exact string_eq_of_data_eq (List.append_cancel_left hd)

theorem foldl_handleStreamEvent_chunks (chunks : List String) :
    ∀ s : CallerStreamState,
      List.foldl handleStreamEvent s (chunks.map StreamEvent.chunk) =
        { s with written := s.written ++ chunks } := by
  induction chunks with
  | nil => intro s; simp
  | cons c cs ih =>
    intro s
    simp [handleStreamEvent, ih]

theorem choice_rebuild_eq (c : Choice) :
    ({ index := c.index
     , message := { role := c.message.role, content := c.message.content }
     , finish_reason := c.finish_reason } : Choice) = c := by
  cases c with
  | mk i msg f => cases msg; rfl

/-- Claim C1 counterexample: the claim says an explicitly supplied
temperature passes through unchanged, but a supplied temperature of zero
is falsy under the `||` defaulting of src/server.js line 88, so the
built request carries 0.7 instead of the supplied 0. -/
theorem claim_C1_counterexample :
    (buildUpstreamRequest
      { model := "gpt-4", messages := [], temperature := some 0
      , max_tokens := none, stream := none }).temperature = 7/10 ∧
    (7/10 : ℚ) ≠ 0 := by
  constructor
  · rfl
  · norm_num

/-- Claim C1 (amended): the built upstream request has temperature 0.7,
max_tokens 2048 and stream false when those fields are omitted; an
explicit stream value passes through unchanged, and explicit temperature
and max_tokens values pass through unchanged when nonzero, while a
supplied zero temperature or zero max_tokens is replaced by the
corresponding default. -/
theorem claim_C1_amended (inbound : InboundChatRequest) :
    ((inbound.temperature = none → (buildUpstreamRequest inbound).temperature = 7/10) ∧
     (∀ t, inbound.temperature = some t → t ≠ 0 →
        (buildUpstreamRequest inbound).temperature = t) ∧
     (inbound.temperature = some 0 → (buildUpstreamRequest inbound).temperature = 7/10)) ∧
    ((inbound.max_tokens = none → (buildUpstreamRequest inbound).max_tokens = 2048) ∧
     (∀ k, inbound.max_tokens = some k → k ≠ 0 →
        (buildUpstreamRequest inbound).max_tokens = k) ∧
     (inbound.max_tokens = some 0 → (buildUpstreamRequest inbound).max_tokens = 2048)) ∧
    ((inbound.stream = none → (buildUpstreamRequest inbound).stream = false) ∧
     (∀ b, inbound.stream = some b → (buildUpstreamRequest inbound).stream = b)) := by
  refine ⟨⟨?_, ?_, ?_⟩, ⟨?_, ?_, ?_⟩, ⟨?_, ?_⟩⟩
  · intro h; simp [buildUpstreamRequest, jsOrDefaultQ, h]
  · intro t ht h0; simp [buildUpstreamRequest, jsOrDefaultQ, ht, h0]
  · intro h; simp [buildUpstreamRequest, jsOrDefaultQ, h]
  · intro h; simp [buildUpstreamRequest, jsOrDefaultZ, h]
  · intro k hk h0; simp [buildUpstreamRequest, jsOrDefaultZ, hk, h0]
  · intro h; simp [buildUpstreamRequest, jsOrDefaultZ, h]
  · intro h; simp [buildUpstreamRequest, jsOrDefaultB, h]
  · intro b hb; cases b <;> simp [buildUpstreamRequest, jsOrDefaultB, hb]

/-- Claim C1 witness: the amended claim applied to a concrete request
with temperature omitted, max_tokens 100 and stream true. -/
theorem claim_C1_witness :
    (buildUpstreamRequest
      { model := "gpt-4", messages := [], temperature := none
      , max_tokens := some 100, stream := some true }).temperature = 7/10 ∧
    (buildUpstreamRequest
      { model := "gpt-4", messages := [], temperature := none
      , max_tokens := some 100, stream := some true }).max_tokens = 100 ∧
    (buildUpstreamRequest
      { model := "gpt-4", messages := [], temperature := none
      , max_tokens := some 100, stream := some true }).stream = true :=
  ⟨(claim_C1_amended _).1.1 rfl
  , (claim_C1_amended _).2.1.2.1 100 rfl (by norm_num)
  , (claim_C1_amended _).2.2.2 true rfl⟩

/-- Claim C2: with no configured credential (unset or empty, both falsy
under the check of src/server.js line 70), the handler returns status 500
with a configuration_error envelope and issues zero upstream requests;
the outcome is a fixed value independent of the request, the upstream
behavior and the clock, so the check precedes all other work. -/
theorem claim_C2 (apiKey : Option String) (req : InboundChatRequest)
    (upstream : NimRequest → UpstreamResult) (nowMillis : ℕ)
    (h : jsTruthyKey apiKey = false) :
    handleChatCompletion apiKey req upstream nowMillis =
      { status := 500
      , body := .errorBody
          { message := "NIM_API_KEY não configurada no servidor"
          , type := "configuration_error"
          , code := none }
      , sentRequests := [] } := by
  simp [handleChatCompletion, h, configErrorEnvelope]

/-- Claim C2 witness: the claim applied to a concrete request with no
credential configured and an upstream spy that would record any call. -/
theorem claim_C2_witness :
    handleChatCompletion none inboundExample upstreamUnavailable 0 =
      { status := 500
      , body := .errorBody
          { message := "NIM_API_KEY não configurada no servidor"
          , type := "configuration_error"
          , code := none }
      , sentRequests := [] } :=
  claim_C2 none inboundExample upstreamUnavailable 0 rfl

/-- Claim C3: every key of the model mapping table resolves to exactly
its configured value, and every absent identifier resolves to the value
mapped from gpt-3.5-turbo (src/server.js line 82). -/
theorem claim_C3 :
    (∀ p ∈ MODEL_MAPPING, resolveUpstreamModel p.1 = some p.2) ∧
    (∀ m, tableLookup MODEL_MAPPING m = none →
      resolveUpstreamModel m = some "meta/llama-3.1-8b-instruct") := by
  constructor
  · decide
  · intro m hm
    show jsOrElseStr (tableLookup MODEL_MAPPING m)
        (tableLookup MODEL_MAPPING "gpt-3.5-turbo") = some "meta/llama-3.1-8b-instruct"
    rw [hm]
    rfl

/-- Claim C3 witness: a mapped identifier resolves to its configured
value and an unmapped identifier resolves to the gpt-3.5-turbo value. -/
theorem claim_C3_witness :
    resolveUpstreamModel "gpt-4" = some "meta/llama-3.1-70b-instruct" ∧
    resolveUpstreamModel "mistral-large" = some "meta/llama-3.1-8b-instruct" :=
  ⟨claim_C3.1 ("gpt-4", "meta/llama-3.1-70b-instruct") (by decide)
  , claim_C3.2 "mistral-large" (by decide)⟩

/-- An upstream failure whose structured error message is the empty
string, with the raw axios description alongside it. -/
def axiosError429EmptyMessage : AxiosError :=
  { response := some
      { status := 429
      , data := some { error := some { message := some "" } } }
  , message := "Request failed with status code 429" }

/-- An upstream failure carrying a response whose status field is 0. -/
def axiosErrorStatusZero : AxiosError :=
  { response := some { status := 0, data := none }
  , message := "boom" }

/-- The upstream failure of the specification example: status 429 with a
structured rate-limit message. -/
def axiosError429RateLimited : AxiosError :=
  { response := some
      { status := 429
      , data := some { error := some { message := some "rate limited" } } }
  , message := "Request failed with status code 429" }

/-- Claim C4 counterexample: the claim says the envelope message is taken
from the upstream error body whenever it is structured and the code
equals the upstream status whenever present, but the `||` defaulting of
src/server.js lines 156 and 157 also replaces a falsy value: a structured
empty message is replaced by the raw failure description, and a present
status of 0 is replaced by 500. -/
theorem claim_C4_counterexample :
    (upstreamErrorMessage axiosError429EmptyMessage = some "" ∧
     (nvidiaErrorEnvelope axiosError429EmptyMessage).message ≠ "") ∧
    (axiosErrorStatusZero.response = some { status := 0, data := none } ∧
     (nvidiaErrorEnvelope axiosErrorStatusZero).code ≠ some 0) := by
  decide

/-- Claim C4 (amended): every failure of the upstream call is converted
to an envelope with type nvidia_api_error whose code is also the
caller-facing status; the code equals the upstream status when present
and nonzero and is 500 otherwise, and the message is the structured
upstream error message when present and nonempty and the raw failure
description otherwise. -/
theorem claim_C4_amended (apiKey : Option String) (req : InboundChatRequest)
    (upstream : NimRequest → UpstreamResult) (nowMillis : ℕ) (e : AxiosError)
    (hk : jsTruthyKey apiKey = true)
    (hu : upstream (buildUpstreamRequest req) = .failure e) :
    handleChatCompletion apiKey req upstream nowMillis =
      { status := upstreamStatusCode e
      , body := .errorBody (nvidiaErrorEnvelope e)
      , sentRequests := [buildUpstreamRequest req] } ∧
    (nvidiaErrorEnvelope e).type = "nvidia_api_error" ∧
    (nvidiaErrorEnvelope e).code = some (upstreamStatusCode e) ∧
    (∀ r, e.response = some r → r.status ≠ 0 → upstreamStatusCode e = r.status) ∧
    (e.response = none → upstreamStatusCode e = 500) ∧
    (∀ m, upstreamErrorMessage e = some m → m ≠ "" →
      (nvidiaErrorEnvelope e).message = m) ∧
    ((upstreamErrorMessage e = none ∨ upstreamErrorMessage e = some "") →
      (nvidiaErrorEnvelope e).message = e.message) := by
  refine ⟨?_, rfl, rfl, ?_, ?_, ?_, ?_⟩
  · simp [handleChatCompletion, hk, hu]
  · intro r hr h0
    simp [upstreamStatusCode, jsOrDefaultNat, hr, h0]
  · intro h
    simp [upstreamStatusCode, jsOrDefaultNat, h]
  · intro m hm h0
    simp [nvidiaErrorEnvelope, errorMessageOf, jsOrDefaultStr, hm, h0]
  · intro h
    rcases h with h | h <;>
      simp [nvidiaErrorEnvelope, errorMessageOf, jsOrDefaultStr, h]

/-- Claim C4 witness: the amended claim applied to the specification
example, a mocked upstream failing with status 429 and message
rate limited. -/
theorem claim_C4_witness :
    handleChatCompletion (some "key") inboundExample
        (fun _ => .failure axiosError429RateLimited) 0 =
      { status := upstreamStatusCode axiosError429RateLimited
      , body := .errorBody (nvidiaErrorEnvelope axiosError429RateLimited)
      , sentRequests := [buildUpstreamRequest inboundExample] } ∧
    nvidiaErrorEnvelope axiosError429RateLimited =
      { message := "rate limited", type := "nvidia_api_error", code := some 429 } ∧
    upstreamStatusCode axiosError429RateLimited = 429 :=
  ⟨(claim_C4_amended (some "key") inboundExample
      (fun _ => .failure axiosError429RateLimited) 0 axiosError429RateLimited
      (by decide) rfl).1
  , by decide
  , by decide⟩

/-- The choice sequence of the reshaped response equals the upstream
choice sequence: the rebuild copies every field through. -/
theorem transcode_choices_eq (callerModel : String) (data : NimResponse) (nowMillis : ℕ) :
    (transcodeResponse callerModel data nowMillis).choices = data.choices := by
  show data.choices.map (fun c =>
      ({ index := c.index
       , message := { role := c.message.role, content := c.message.content }
       , finish_reason := c.finish_reason } : Choice)) = data.choices
  simp only [choice_rebuild_eq]
  exact data.choices.map_id

/-- Claim C5: the reshaped non-streaming response carries the original
caller-requested model identifier, the upstream choice sequence copied
through unchanged (index, role, content and finish_reason), and the
upstream usage when present and all-zero counts when absent
(src/server.js lines 129 to 147). -/
theorem claim_C5 (callerModel : String) (data : NimResponse) (nowMillis : ℕ) :
    (transcodeResponse callerModel data nowMillis).model = callerModel ∧
    (transcodeResponse callerModel data nowMillis).choices = data.choices ∧
    (∀ u, data.usage = some u →
      (transcodeResponse callerModel data nowMillis).usage = u) ∧
    (data.usage = none →
      (transcodeResponse callerModel data nowMillis).usage =
        { prompt_tokens := 0, completion_tokens := 0, total_tokens := 0 }) := by
  refine ⟨rfl, transcode_choices_eq callerModel data nowMillis, ?_, ?_⟩
  · intro u hu
    simp [transcodeResponse, hu]
  · intro h
    simp [transcodeResponse, h]

/-- Claim C5 witness: the claim applied to the specification example, a
mocked upstream success with one choice and no usage object, requested
as gpt-4. -/
theorem claim_C5_witness :
    (transcodeResponse "gpt-4" nimResponseExample 1000).model = "gpt-4" ∧
    (transcodeResponse "gpt-4" nimResponseExample 1000).choices = nimResponseExample.choices ∧
    (transcodeResponse "gpt-4" nimResponseExample 1000).usage =
      { prompt_tokens := 0, completion_tokens := 0, total_tokens := 0 } :=
  ⟨(claim_C5 "gpt-4" nimResponseExample 1000).1
  , (claim_C5 "gpt-4" nimResponseExample 1000).2.1
  , (claim_C5 "gpt-4" nimResponseExample 1000).2.2.2 rfl⟩

/-- Claim C6: for an upstream stream emitting any chunk sequence and then
terminating, the caller receives exactly those chunks, verbatim and in
order, and the caller stream is then closed; on normal end and on a
mid-stream transport error alike, nothing beyond the forwarded chunks is
ever written, so no terminal error payload is emitted (src/server.js
lines 115 to 126). -/
theorem claim_C6 (chunks : List String) :
    relayStream (chunks.map StreamEvent.chunk ++ [StreamEvent.streamEnd]) =
      { written := chunks, closed := true } ∧
    (∀ msg, relayStream (chunks.map StreamEvent.chunk ++ [StreamEvent.streamError msg]) =
      { written := chunks, closed := true }) := by
  constructor
  · unfold relayStream
    rw [List.foldl_append, foldl_handleStreamEvent_chunks]
    simp [handleStreamEvent]
  · intro msg
    unfold relayStream
    rw [List.foldl_append, foldl_handleStreamEvent_chunks]
    simp [handleStreamEvent]

/-- Claim C7 counterexample: the claim says synthesized identifiers are
unique per response, but the identifier is `chatcmpl-` followed by the
millisecond clock value only (src/server.js line 130), so two distinct
responses produced at the same millisecond share one identifier. -/
theorem claim_C7_counterexample :
    transcodeResponse "gpt-4" nimResponseExample 1000 ≠
      transcodeResponse "gpt-3.5-turbo" nimResponseExample 1000 ∧
    (transcodeResponse "gpt-4" nimResponseExample 1000).id =
      (transcodeResponse "gpt-3.5-turbo" nimResponseExample 1000).id := by
  refine ⟨by decide, rfl⟩

/-- Claim C7 (amended): the synthesized identifier is a function of the
generation timestamp alone, and it is injective in the timestamp: two
non-streaming responses produced at distinct millisecond timestamps have
distinct identifiers, while responses produced within the same
millisecond share one identifier. -/
theorem claim_C7_amended (m1 m2 : String) (d1 d2 : NimResponse) (t1 t2 : ℕ)
    (h : t1 ≠ t2) :
    (transcodeResponse m1 d1 t1).id ≠ (transcodeResponse m2 d2 t2).id := by
  show ("chatcmpl-" ++ natToDecimal t1) ≠ ("chatcmpl-" ++ natToDecimal t2)
  exact responseId_ne t1 t2 h

/-- Claim C7 witness: the amended claim applied at the distinct
timestamps 1 and 2. -/
theorem claim_C7_witness :
    (1 : ℕ) ≠ 2 ∧
    (transcodeResponse "gpt-4" nimResponseExample 1).id ≠
      (transcodeResponse "gpt-4" nimResponseExample 2).id :=
  ⟨by decide
  , claim_C7_amended "gpt-4" "gpt-4" nimResponseExample nimResponseExample 1 2 (by decide)⟩

/-- Claim C8: every method and path pair matching none of the four
defined routes reaches the catch-all (src/server.js lines 170 to 177)
and yields status 404 with a not_found envelope whose message contains
the requested path. -/
theorem claim_C8 (method path : String)
    (h : ¬ ((method = "GET" ∧ path = "/health") ∨
            (method = "GET" ∧ path = "/") ∨
            (method = "GET" ∧ path = "/v1/models") ∨
            (method = "POST" ∧ path = "/v1/chat/completions"))) :
    dispatchRoute method path =
      RouteOutcome.notFound 404
        { message := "Endpoint " ++ path ++ " não encontrado"
        , type := "not_found"
        , code := none } ∧
    (∃ l r, "Endpoint " ++ path ++ " não encontrado" = l ++ path ++ r) := by
  constructor
  · unfold dispatchRoute
    rw [if_neg (fun hc => h (Or.inl hc)),
        if_neg (fun hc => h (Or.inr (Or.inl hc))),
        if_neg (fun hc => h (Or.inr (Or.inr (Or.inl hc)))),
        if_neg (fun hc => h (Or.inr (Or.inr (Or.inr hc))))]
  · exact ⟨"Endpoint ", " não encontrado", rfl⟩

/-- Claim C8 witness: the claim applied to GET /nonexistent. -/
theorem claim_C8_witness :
    dispatchRoute "GET" "/nonexistent" =
      RouteOutcome.notFound 404
        { message := "Endpoint " ++ "/nonexistent" ++ " não encontrado"
        , type := "not_found"
        , code := none } ∧
    (∃ l r, "Endpoint " ++ "/nonexistent" ++ " não encontrado" =
        l ++ "/nonexistent" ++ r) :=
  claim_C8 "GET" "/nonexistent" (by decide)

/-- Claim C9, settled against the intended table (the source object
literal itself is a JavaScript SyntaxError: a comma is missing between
the gemini-pro and deepseek-v3.2 entries, so the module fails to load at
startup and the table is never initialized; with the comma restored the
table is as embedded here).  For the embedded table the default key
gpt-3.5-turbo is present and model resolution is total: it yields a
value for every caller-supplied identifier. -/
theorem claim_C9_intended :
    tableLookup MODEL_MAPPING "gpt-3.5-turbo" = some "meta/llama-3.1-8b-instruct" ∧
    (∀ m, ∃ v, resolveUpstreamModel m = some v) := by
  constructor
  · rfl
  · intro m
    show ∃ v, jsOrElseStr (tableLookup MODEL_MAPPING m)
        (tableLookup MODEL_MAPPING "gpt-3.5-turbo") = some v
    cases htl : tableLookup MODEL_MAPPING m with
    | none => exact ⟨"meta/llama-3.1-8b-instruct", rfl⟩
    | some v =>
      by_cases hv : v = ""
      · subst hv
        exact ⟨"meta/llama-3.1-8b-instruct", by decide⟩
      · exact ⟨v, by simp [jsOrElseStr, hv]⟩

/-- Claim C10: a supplied temperature of zero and a supplied max_tokens
of zero are falsy under the `||` defaulting of src/server.js lines 88
and 89, so the built upstream request carries the defaults 0.7 and 2048
instead of the supplied zero values. -/
theorem claim_C10 (inbound : InboundChatRequest) :
    (inbound.temperature = some 0 →
      (buildUpstreamRequest inbound).temperature = 7/10) ∧
    (inbound.max_tokens = some 0 →
      (buildUpstreamRequest inbound).max_tokens = 2048) := by
  constructor
  · intro h; simp [buildUpstreamRequest, jsOrDefaultQ, h]
  · intro h; simp [buildUpstreamRequest, jsOrDefaultZ, h]

/-- Claim C10 witness: the claim applied to a concrete request supplying
temperature 0 and max_tokens 0. -/
theorem claim_C10_witness :
    (buildUpstreamRequest
      { model := "gpt-3.5-turbo", messages := [], temperature := some 0
      , max_tokens := some 0, stream := some false }).temperature = 7/10 ∧
    (buildUpstreamRequest
      { model := "gpt-3.5-turbo", messages := [], temperature := some 0
      , max_tokens := some 0, stream := some false }).max_tokens = 2048 :=
  ⟨(claim_C10 _).1 rfl, (claim_C10 _).2 rfl⟩

end NimProxy
